import Mathlib

/-
Verification of the W-2 PDF processing pipeline: a shallow embedding of
src/w2pdf/pdf_utils.py and src/w2pdf/views.py.  Pure helpers model the
Python functions; the request handler is modelled as a function from an
environment (upstream responses, extraction outcome, write-failure flag)
to a final response together with a trace of observable events (content
reads, temporary-file creation and deletion, outbound HTTP requests).
-/

deriving instance DecidableEq for Except

namespace W2PDF

-- ===== generic list and string helpers =====

/-- startsList xs ys: xs is a leading segment of ys. -/
def startsList : List Char → List Char → Bool
  | [], _ => true
  | _ :: _, [] => false
  | x :: xs, y :: ys => x == y && startsList xs ys

/-- subList xs ys: xs occurs contiguously somewhere inside ys. -/
def subList : List Char → List Char → Bool
  | xs, [] => xs.isEmpty
  | xs, y :: ys => startsList xs (y :: ys) || subList xs ys

/-- strHasSub needle hay: needle occurs as a contiguous substring of hay. -/
def strHasSub (needle hay : String) : Bool := subList needle.data hay.data

/-- endsList tail l: l ends with tail (models Python str.endswith). -/
def endsList (tail l : List Char) : Bool := startsList tail.reverse l.reverse

-- ===== regex engine for the four patterns of _parse_w2_fields =====
-- Models Python re.search semantics for these patterns: scan for the
-- leftmost starting position; alternation tries alternatives left to
-- right; a bounded gap .{0,n} is greedy (largest width first) and never
-- crosses a newline; the capture group is the final value shape, so it
-- needs no continuation of its own.

/-- Continuation-style matcher piece: given the rest of the text, either
fail or produce the captured value. -/
def Cont := List Char → Option (List Char)

/-- Case-insensitive literal, as Python re.IGNORECASE on a plain word. -/
def litCI : List Char → Cont → Cont
  | [], k, s => k s
  | _ :: _, _, [] => none
  | c :: cs, k, x :: xs =>
      if x.toLower == c.toLower then litCI cs k xs else none

/-- Drop exactly n characters, none of which may be a newline (regex dot). -/
def dropNonNl : Nat → List Char → Option (List Char)
  | 0, s => some s
  | _ + 1, [] => none
  | n + 1, c :: cs => if c == '\n' then none else dropNonNl n cs

/-- Greedy bounded gap: .{0,n} tries the largest width first. -/
def gapUpTo : Nat → Cont → Cont
  | 0, k, s => k s
  | n + 1, k, s =>
      (match dropNonNl (n + 1) s with
       | some rest => k rest
       | none => none) <|> gapUpTo n k s

/-- Exactly n decimal digits; returns them and the rest. -/
def digitsExact : Nat → List Char → Option (List Char × List Char)
  | 0, s => some ([], s)
  | _ + 1, [] => none
  | n + 1, c :: cs =>
      if c.isDigit then (digitsExact n cs).map (fun p => (c :: p.1, p.2))
      else none

/-- Value shape NN-NNNNNNN for the employer identifier. -/
def einValue : Cont := fun s =>
  match digitsExact 2 s with
  | none => none
  | some (d1, r1) =>
    match r1 with
    | '-' :: r2 =>
      match digitsExact 7 r2 with
      | none => none
      | some (d2, _) => some (d1 ++ '-' :: d2)
    | _ => none

/-- Value shape NNN-NN-NNNN for the employee identifier. -/
def ssnValue : Cont := fun s =>
  match digitsExact 3 s with
  | none => none
  | some (d1, r1) =>
    match r1 with
    | '-' :: r2 =>
      match digitsExact 2 r2 with
      | none => none
      | some (d2, r3) =>
        match r3 with
        | '-' :: r4 =>
          match digitsExact 4 r4 with
          | none => none
          | some (d3, _) => some (d1 ++ '-' :: (d2 ++ '-' :: d3))
        | _ => none
    | _ => none

def isDigitComma (c : Char) : Bool := c.isDigit || c == ','

/-- Monetary value shape: optional dollar sign, then the capture
group of digits and commas, an optional dot, and up to two more digits.
The group is the pattern tail, so maximal munch equals the greedy
backtracking answer. -/
def moneyValue : Cont := fun s =>
  let s1 := match s with
    | '$' :: r => r
    | _ => s
  let core := s1.takeWhile isDigitComma
  if core.isEmpty then none
  else
    match s1.drop core.length with
    | '.' :: r2 => some (core ++ '.' :: (r2.takeWhile Char.isDigit).take 2)
    | _ => some core

/-- EIN pattern of pdf_utils line 52. -/
def einAt : Cont := fun s =>
  litCI "EIN".data (gapUpTo 20 einValue) s <|>
  litCI "Employer".data (gapUpTo 20 (litCI "ID".data (gapUpTo 20 einValue))) s <|>
  litCI "Federal".data (gapUpTo 20 (litCI "ID".data (gapUpTo 20 einValue))) s

/-- SSN pattern of pdf_utils line 57. -/
def ssnAt : Cont := fun s =>
  litCI "SSN".data (gapUpTo 20 ssnValue) s <|>
  litCI "Social".data (gapUpTo 20 (litCI "Security".data (gapUpTo 20 ssnValue))) s <|>
  litCI "Employee".data (gapUpTo 20 (litCI "SSN".data (gapUpTo 20 ssnValue))) s

/-- Wages pattern of pdf_utils line 62. -/
def wagesAt : Cont := fun s =>
  litCI "Box".data (gapUpTo 5 (litCI "1".data (gapUpTo 20 moneyValue))) s <|>
  litCI "Wages".data (gapUpTo 20 moneyValue) s

/-- Withheld-tax pattern of pdf_utils line 68. -/
def taxAt : Cont := fun s =>
  litCI "Box".data (gapUpTo 5 (litCI "2".data (gapUpTo 20 moneyValue))) s <|>
  litCI "Federal".data (gapUpTo 20 (litCI "tax".data (gapUpTo 20 moneyValue))) s <|>
  litCI "Tax".data (gapUpTo 20 (litCI "withheld".data (gapUpTo 20 moneyValue))) s

/-- re.search: leftmost starting position wins. -/
def reSearch (m : Cont) : List Char → Option (List Char)
  | [] => m []
  | c :: cs => m (c :: cs) <|> reSearch m cs

-- ===== field parsing (pdf_utils._parse_w2_fields) =====

/-- Scalar value of one extracted field: the two identifiers are strings,
the two amounts are exact decimals kept in hundredths (so 50000.00 is
5000000); every amount the patterns can capture has at most two fraction
digits, so this representation is exact. -/
inductive FieldVal
  | str (v : String)
  | money (cents : Nat)
deriving DecidableEq

/-- The insertion-ordered dictionary built by _parse_w2_fields. -/
abbrev Fields := List (String × FieldVal)

def stripCommas (s : List Char) : List Char := s.filter (fun c => !(c == ','))

def natOfDigits (s : List Char) : Nat :=
  s.foldl (fun n c => n * 10 + (c.toNat - 48)) 0

/-- Python float() on a comma-stripped capture, in hundredths; none when
the string holds no digit at all (Python would raise ValueError). -/
def parseFloatCents (s : List Char) : Option Nat :=
  let intPart := s.takeWhile Char.isDigit
  match s.drop intPart.length with
  | [] => if intPart.isEmpty then none else some (natOfDigits intPart * 100)
  | '.' :: fr =>
    if intPart.isEmpty && fr.isEmpty then none
    else if fr.all Char.isDigit && fr.length ≤ 2 then
      some (natOfDigits intPart * 100 + natOfDigits fr * 10 ^ (2 - fr.length))
    else none
  | _ => none

/-- One monetary dictionary entry, or the float conversion failure. -/
def moneyField (key : String) (cap : Option (List Char)) :
    Except String Fields :=
  match cap with
  | none => Except.ok []
  | some c =>
    match parseFloatCents (stripCommas c) with
    | some cents => Except.ok [(key, FieldVal.money cents)]
    | none => Except.error "could not convert string to float"

/-- pdf_utils._parse_w2_fields: four independent regex searches over the
whole text, first match each, commas stripped from amounts; an amount
capture without digits raises through float(). -/
def parse_w2_fields (text : String) : Except String Fields :=
  let t := text.data
  let e : Fields := match reSearch einAt t with
    | some c => [( "ein", FieldVal.str (String.mk c))]
    | none => []
  let s : Fields := match reSearch ssnAt t with
    | some c => [( "ssn", FieldVal.str (String.mk c))]
    | none => []
  match moneyField "wages" (reSearch wagesAt t) with
  | Except.error m => Except.error m
  | Except.ok w =>
    match moneyField "federal_tax_withheld" (reSearch taxAt t) with
    | Except.error m => Except.error m
    | Except.ok x => Except.ok (e ++ s ++ w ++ x)

-- ===== extract_w2_fields (pdf_utils lines 4-37) =====

def required_fields : List String :=
  [ "ein", "ssn", "wages", "federal_tax_withheld" ]

def hasKey (fs : Fields) (k : String) : Bool := fs.any (fun p => p.1 == k)

/-- The missing_fields list of pdf_utils lines 26-27. -/
def missingOf (fs : Fields) : List String :=
  required_fields.filter (fun k => !(hasKey fs k))

inductive ExtractErr
  | valueError (msg : String)
  | genericError (msg : String)
deriving DecidableEq

def joinComma (l : List String) : String := String.intercalate ", " l

/-- pdf_utils.extract_w2_fields on the outcome of text extraction: a text
extraction failure or a float failure is wrapped as a generic failure;
missing mandatory fields raise the ValueError naming them; otherwise the
full dictionary is returned.  Both the in-memory and the file-path branch
feed the same bytes to the same reader, so one text outcome models both. -/
def extract_w2_fields (textResult : Except String String) :
    Except ExtractErr Fields :=
  match textResult with
  | Except.error e =>
      Except.error (ExtractErr.genericError ( "Failed to process PDF: " ++ e))
  | Except.ok text =>
    match parse_w2_fields text with
    | Except.error e =>
        Except.error (ExtractErr.genericError ( "Failed to process PDF: " ++ e))
    | Except.ok fields =>
      if (missingOf fields).isEmpty then Except.ok fields
      else
        Except.error (ExtractErr.valueError
          ( "Missing required fields in PDF: " ++ joinComma (missingOf fields)))

-- ===== views.py constants and upload model =====

def MAX_MEMORY_SIZE : Nat := 2 * 1024 * 1024

def CHUNK_SIZE : Nat := 64 * 1024

def REQUEST_TIMEOUT : Nat := 30

/-- The uploaded document as the view sees it: declared name, declared
content type when the attribute is present, declared size in bytes. -/
structure UploadedFile where
  name : String
  content_type : Option String
  size : Nat
deriving DecidableEq

/-- views._should_use_chunked_processing (line 34). -/
def should_use_chunked_processing (f : UploadedFile) : Bool :=
  decide (f.size > MAX_MEMORY_SIZE)

/-- Lowercasing of the file name, as Python str.lower on the name. -/
def lowerName (f : UploadedFile) : List Char :=
  f.name.data.map Char.toLower

/-- views._validate_pdf_file (lines 36-46): first failed check wins. -/
def validate_pdf_file (f : UploadedFile) : Option String :=
  if !(endsList ".pdf".data (lowerName f)) then
    some "File extension must be .pdf"
  else if (match f.content_type with
           | some ct => decide (ct ≠ "application/pdf")
           | none => false) then
    some "Content type must be application/pdf"
  else if f.size == 0 then
    some "Uploaded file is empty."
  else none

-- ===== request-level state: observable events =====

structure Settings where
  THIRD_PARTY_UPLOAD_URL : String
  SECRET_KEY : String
deriving DecidableEq

inductive TransportFailure
  | connectError
  | timeoutException
  | otherRequestError (msg : String)
deriving DecidableEq

/-- An httpx response as far as the view reads it: the status code, the
raw body text, and the identifier field pulled from the JSON body
(response.json().get, absent key giving none). -/
structure UpstreamResponse where
  status_code : Nat
  text : String
  jsonId : Option String
deriving DecidableEq

inductive CallOutcome
  | resp (r : UpstreamResponse)
  | transport (t : TransportFailure)
deriving DecidableEq

/-- Request body of an outbound relay call: JSON fields for the data
submission, multipart file plus form fields for the file submission. -/
inductive ReqBody
  | jsonBody (fields : Fields)
  | multipartBody (fileName : String) (dataFields : List (String × String))
deriving DecidableEq

structure HttpRequest where
  url : String
  body : ReqBody
  headerSecret : String
  timeoutSeconds : Nat
deriving DecidableEq

/-- Observable events of one request, in order of occurrence. -/
inductive Ev
  | contentRead
  | tempCreated
  | tempDeleted
  | sent (r : HttpRequest)
deriving DecidableEq

/-- Request-scoped state: the event trace so far, and whether the
temporary file currently exists on disk. -/
structure St where
  evs : List Ev
  tempExists : Bool
deriving DecidableEq

def St.init : St := ⟨[], false⟩

def emitSent (st : St) (r : HttpRequest) : St :=
  ⟨st.evs ++ [Ev.sent r], st.tempExists⟩

/-- The environment a single request runs in: the text that PyPDF2 would
extract from the uploaded bytes (or the failure it would raise), whether
the chunked write to the temporary file fails, and the outcome of each of
the two outbound calls. -/
structure Env where
  textExtract : Except String String
  spillWriteFails : Bool
  call1 : CallOutcome
  call2 : CallOutcome

/-- views._save_file_in_chunks (lines 48-74): create the temporary file,
read and write the upload chunk by chunk; on a write failure delete the
partial file and re-raise; on success return the path with the file
still on disk. -/
def save_file_in_chunks (env : Env) (st : St) : St × Except String String :=
  let st1 : St := ⟨st.evs ++ [Ev.tempCreated, Ev.contentRead], true⟩
  if env.spillWriteFails then
    (⟨st1.evs ++ [Ev.tempDeleted], false⟩, Except.error "chunk write failure")
  else
    (st1, Except.ok "tmpfile.pdf")

/-- views._cleanup_temp_file (lines 76-83): delete only when the path is
set and the file exists, so deletion is idempotent. -/
def cleanup_temp_file (path : Option String) (st : St) : St :=
  match path with
  | none => st
  | some _ =>
    if st.tempExists then ⟨st.evs ++ [Ev.tempDeleted], false⟩
    else st

/-- views._extract_pdf_fields (lines 85-100): spill to a temporary file
when the size is over the ceiling, extract, and always run the cleanup in
the finally block.  When the spill itself fails, temp_file_path was never
assigned, so the finally cleanup is a no-op; the spill already deleted
its own file. -/
def extract_pdf_fields (file : UploadedFile) (env : Env) (st : St) :
    St × Except ExtractErr Fields :=
  if should_use_chunked_processing file then
    match save_file_in_chunks env st with
    | (st1, Except.error e) =>
        (cleanup_temp_file none st1, Except.error (ExtractErr.genericError e))
    | (st1, Except.ok p) =>
        (cleanup_temp_file (some p) st1, extract_w2_fields env.textExtract)
  else
    (cleanup_temp_file none ⟨st.evs ++ [Ev.contentRead], st.tempExists⟩,
     extract_w2_fields env.textExtract)

-- ===== relay client =====

/-- Result of views._handle_third_party_response (lines 102-123). -/
inductive HandleResult
  | errorResp (code : Nat) (msg : String)
  | raiseExc (msg : String)
  | ok
deriving DecidableEq

/-- views._handle_third_party_response: 401, 400 and 500+ return a 502
error response; any other non-200 raises with the raw body; 200 is fine. -/
def handle_third_party_response (r : UpstreamResponse) (op : String) :
    HandleResult :=
  if r.status_code == 401 then
    HandleResult.errorResp 502
      ( "Authentication failed with third-party API for " ++ op ++ ".")
  else if r.status_code == 400 then
    HandleResult.errorResp 502 ( "Third-party API rejected " ++ op ++ ".")
  else if r.status_code ≥ 500 then
    HandleResult.errorResp 502
      ( "Third-party API server error for " ++ op ++ ".")
  else if !(r.status_code == 200) then
    HandleResult.raiseExc ( "Third-party " ++ op ++ " API error: " ++ r.text)
  else HandleResult.ok

/-- Python str() of the dict held by an error Response, as interpolated
into the exception message raised by _process_third_party_integration. -/
def dictErrStr (msg : String) : String :=
  "\x7b\x27error\x27: \x27" ++ msg ++ "\x27\x7d"

/-- The data-submission request of views._report_data_to_third_party
(lines 129-134). -/
def report_request (settings : Settings) (fields : Fields) : HttpRequest :=
  ⟨settings.THIRD_PARTY_UPLOAD_URL, ReqBody.jsonBody fields,
   settings.SECRET_KEY, REQUEST_TIMEOUT⟩

/-- views line 151: the form body carries unique_id only when data_id is
truthy (neither None nor empty). -/
def upload_data_fields : Option String → List (String × String)
  | none => []
  | some i => if i == "" then [] else [( "unique_id", i)]

/-- The file-submission request of views._upload_file_to_third_party
(lines 149-159). -/
def upload_request (settings : Settings) (fileName : String)
    (dId : Option String) : HttpRequest :=
  ⟨settings.THIRD_PARTY_UPLOAD_URL,
   ReqBody.multipartBody fileName (upload_data_fields dId),
   settings.SECRET_KEY, REQUEST_TIMEOUT⟩

/-- The exceptions that can escape _process_third_party_integration, in
the shape the post handler catches them (views lines 202-216). -/
inductive PipelineExc
  | connectError
  | timeoutException
  | requestError (msg : String)
  | generic (msg : String)
deriving DecidableEq

def excOfTransport : TransportFailure → PipelineExc
  | TransportFailure.connectError => PipelineExc.connectError
  | TransportFailure.timeoutException => PipelineExc.timeoutException
  | TransportFailure.otherRequestError m => PipelineExc.requestError m

/-- views._process_third_party_integration (lines 226-238) together with
the two call helpers it delegates to: send the data submission; on any
failure raise without touching the second call; otherwise send the file
submission tagged with the identifier of the first response. -/
def process_third_party_integration (settings : Settings)
    (file : UploadedFile) (fields : Fields) (env : Env) (st : St) :
    St × Except PipelineExc (Option String × Option String) :=
  let st1 := emitSent st (report_request settings fields)
  match env.call1 with
  | CallOutcome.transport t => (st1, Except.error (excOfTransport t))
  | CallOutcome.resp r =>
    match handle_third_party_response r "data reporting" with
    | HandleResult.errorResp _ m =>
        (st1, Except.error (PipelineExc.generic
          ( "Data reporting failed: " ++ dictErrStr m)))
    | HandleResult.raiseExc m => (st1, Except.error (PipelineExc.generic m))
    | HandleResult.ok =>
      let dId := r.jsonId
      let st2 := emitSent st1 (upload_request settings file.name dId)
      match env.call2 with
      | CallOutcome.transport t => (st2, Except.error (excOfTransport t))
      | CallOutcome.resp r2 =>
        match handle_third_party_response r2 "file upload" with
        | HandleResult.errorResp _ m =>
            (st2, Except.error (PipelineExc.generic
              ( "File upload failed: " ++ dictErrStr m)))
        | HandleResult.raiseExc m =>
            (st2, Except.error (PipelineExc.generic m))
        | HandleResult.ok => (st2, Except.ok (dId, r2.jsonId))

-- ===== the post handler =====

inductive RespBody
  | err (msg : String)
  | success (fields : Fields) (data_id : Option String)
      (file_id : Option String)
deriving DecidableEq

structure FinalResponse where
  status : Nat
  body : RespBody
deriving DecidableEq

/-- The except clauses of views.post lines 202-216. -/
def excResponse : PipelineExc → FinalResponse
  | PipelineExc.connectError =>
      ⟨502, RespBody.err "Unable to connect to third-party API."⟩
  | PipelineExc.timeoutException =>
      ⟨504, RespBody.err "Timeout contacting third-party API."⟩
  | PipelineExc.requestError m =>
      ⟨502, RespBody.err ( "Network error contacting third-party API: " ++ m)⟩
  | PipelineExc.generic m => ⟨502, RespBody.err m⟩

/-- views.post (lines 170-224), after the serializer gate: validate the
file, run extraction with temporary-file management, then the two-call
relay, mapping each failure to its HTTP response. -/
def post (file : UploadedFile) (env : Env) (settings : Settings) :
    St × FinalResponse :=
  match validate_pdf_file file with
  | some m => (St.init, ⟨400, RespBody.err m⟩)
  | none =>
    match extract_pdf_fields file env St.init with
    | (st, Except.error (ExtractErr.valueError m)) =>
        (st, ⟨422, RespBody.err ( "PDF parsing error: " ++ m)⟩)
    | (st, Except.error (ExtractErr.genericError m)) =>
        (st, ⟨422, RespBody.err ( "Failed to read PDF: " ++ m)⟩)
    | (st, Except.ok fields) =>
      match process_third_party_integration settings file fields env st with
      | (st2, Except.error exc) => (st2, excResponse exc)
      | (st2, Except.ok (dId, fId)) =>
          (st2, ⟨200, RespBody.success fields dId fId⟩)

-- ===== failure classification (the mapping table of the relay) =====

/-- The classification of one upstream call outcome, indexed exactly as
the table in _handle_third_party_response plus the three transport
except clauses of post. -/
inductive FailClass
  | auth401
  | rejected400
  | server5xx
  | otherStatus (body : String)
  | connect
  | timeout
  | netOther (msg : String)
deriving DecidableEq

/-- Classify one call outcome; none means upstream answered 200. -/
def classifyOutcome : CallOutcome → Option FailClass
  | CallOutcome.transport TransportFailure.connectError => some FailClass.connect
  | CallOutcome.transport TransportFailure.timeoutException =>
      some FailClass.timeout
  | CallOutcome.transport (TransportFailure.otherRequestError m) =>
      some (FailClass.netOther m)
  | CallOutcome.resp r =>
    if r.status_code == 401 then some FailClass.auth401
    else if r.status_code == 400 then some FailClass.rejected400
    else if r.status_code ≥ 500 then some FailClass.server5xx
    else if !(r.status_code == 200) then
      some (FailClass.otherStatus r.text)
    else none

/-- The first relay failure of a run: the boolean is false for the data
submission, true for the file submission (only reachable when the first
call succeeded). -/
def relayFailure (env : Env) : Option (Bool × FailClass) :=
  match classifyOutcome env.call1 with
  | some c => some (false, c)
  | none => (classifyOutcome env.call2).map (fun c => (true, c))

def opName (w : Bool) : String :=
  if w then "file upload" else "data reporting"

def failTag (w : Bool) : String :=
  if w then "File upload failed: " else "Data reporting failed: "

/-- The exception that _process_third_party_integration lets escape for a
given failure class of a given call, read off the code paths. -/
def excOfClass (w : Bool) : FailClass → PipelineExc
  | FailClass.connect => PipelineExc.connectError
  | FailClass.timeout => PipelineExc.timeoutException
  | FailClass.netOther m => PipelineExc.requestError m
  | FailClass.auth401 =>
      PipelineExc.generic (failTag w ++ dictErrStr
        ( "Authentication failed with third-party API for " ++ opName w ++ "."))
  | FailClass.rejected400 =>
      PipelineExc.generic (failTag w ++ dictErrStr
        ( "Third-party API rejected " ++ opName w ++ "."))
  | FailClass.server5xx =>
      PipelineExc.generic (failTag w ++ dictErrStr
        ( "Third-party API server error for " ++ opName w ++ "."))
  | FailClass.otherStatus b =>
      PipelineExc.generic ( "Third-party " ++ opName w ++ " API error: " ++ b)

def isSuccessBody : RespBody → Bool
  | RespBody.success _ _ _ => true
  | RespBody.err _ => false

/-- True for the event of sending the multipart file submission. -/
def isMultipartSent : Ev → Bool
  | Ev.sent ⟨_, ReqBody.multipartBody _ _, _, _⟩ => true
  | _ => false

/-- Written from the specification wording: the caller-visible message
matched to the classification, echoing the raw upstream body for an
unexpected status; false on any success payload. -/
def specMsgMatches : FailClass → RespBody → Bool
  | FailClass.auth401, RespBody.err m => strHasSub "Authentication failed" m
  | FailClass.rejected400, RespBody.err m => strHasSub "rejected" m
  | FailClass.server5xx, RespBody.err m => strHasSub "server error" m
  | FailClass.otherStatus b, RespBody.err m => strHasSub b m
  | FailClass.timeout, RespBody.err m =>
      m == "Timeout contacting third-party API."
  | FailClass.connect, RespBody.err m =>
      m == "Unable to connect to third-party API."
  | FailClass.netOther em, RespBody.err m => strHasSub em m
  | _, RespBody.success _ _ _ => false

/-- Written from the specification wording for the relay error taxonomy
(mapping table plus gateway-error paragraph): no success payload, a
gateway-class status, 504 exactly for a timeout, and a caller-visible
message matched to the classification. -/
def specGatewayMapping (c : FailClass) (resp : FinalResponse) : Prop :=
  isSuccessBody resp.body = false ∧
  (resp.status = 502 ∨ resp.status = 504) ∧
  (resp.status = 504 ↔ c = FailClass.timeout) ∧
  specMsgMatches c resp.body = true

-- ===== concrete fixtures used by witnesses and counterexamples =====

/-- The document text of Scenario A in the specification. -/
def scenarioText : String :=
  "EIN 12-3456789 ... SSN 123-45-6789 ... Box 1 $50,000.00 ... Box 2 $5,000.00"

/-- What the parser actually produces on the Scenario A text: both
identifiers as specified, but wages = 2.00 (200 hundredths) and withheld
tax = 0.00, because the greedy bounded lookahead starts the amount
capture as late as it can. -/
def scenarioFields : Fields :=
  [( "ein", FieldVal.str "12-3456789"),
   ( "ssn", FieldVal.str "123-45-6789"),
   ( "wages", FieldVal.money 200),
   ( "federal_tax_withheld", FieldVal.money 0)]

def file0 : UploadedFile := ⟨ "w2.pdf", some "application/pdf", 1024⟩

def bigFile : UploadedFile :=
  ⟨ "w2.pdf", some "application/pdf", 5 * 1024 * 1024⟩

def badExtFile : UploadedFile := ⟨ "w2.txt", some "application/pdf", 10⟩

def settings0 : Settings := ⟨ "http://third-party.example/upload", "sekret"⟩

def envOk : Env :=
  ⟨Except.ok scenarioText, false,
   CallOutcome.resp ⟨200, "ok", some "RID"⟩,
   CallOutcome.resp ⟨200, "ok", some "FID"⟩⟩

def env401 : Env :=
  ⟨Except.ok scenarioText, false,
   CallOutcome.resp ⟨401, "denied", none⟩,
   CallOutcome.resp ⟨200, "ok", some "FID"⟩⟩

def envNoId : Env :=
  ⟨Except.ok scenarioText, false,
   CallOutcome.resp ⟨200, "ok", none⟩,
   CallOutcome.resp ⟨200, "ok", some "FID"⟩⟩

def envSpillFail : Env :=
  ⟨Except.ok scenarioText, true,
   CallOutcome.resp ⟨200, "ok", some "RID"⟩,
   CallOutcome.resp ⟨200, "ok", some "FID"⟩⟩

/-- The content-type check of _validate_pdf_file in isolation: passes when
the attribute is absent or equals the expected media type. -/
def content_type_ok (f : UploadedFile) : Bool :=
  match f.content_type with
  | some ct => ct == "application/pdf"
  | none => true


/-- Trace-shape property of one run, used to factor several proofs: the
run stopped at validation with an untouched state, or its trace is the
extraction trace followed by the relay requests actually sent, all to the
configured URL, with at most the data submission sent when the first call
failed, and any multipart submission tied to a 200 first response. -/
def TraceShape (file : UploadedFile) (env : Env) (settings : Settings) :
    Prop :=
  (post file env settings).1 = St.init ∨
  ∃ reqs : List HttpRequest,
    (post file env settings).1.evs =
      (extract_pdf_fields file env St.init).1.evs ++ reqs.map Ev.sent ∧
    (post file env settings).1.tempExists =
      (extract_pdf_fields file env St.init).1.tempExists ∧
    (∀ q ∈ reqs, q.url = settings.THIRD_PARTY_UPLOAD_URL) ∧
    ((classifyOutcome env.call1).isSome = true →
      reqs = [] ∨ ∃ fields, reqs = [report_request settings fields]) ∧
    (∀ q ∈ reqs, ∀ nm df, q.body = ReqBody.multipartBody nm df →
      ∃ r, env.call1 = CallOutcome.resp r ∧ r.status_code = 200 ∧
        df = upload_data_fields r.jsonId)

-- ===== theorems =====

theorem startsList_refl (l : List Char) : startsList l l = true := by
  induction l with
  | nil => rfl
  | cons x xs ih => simp [startsList, ih]

theorem subList_append_self (p m : List Char) : subList m (p ++ m) = true := by
  induction p with
  | nil =>
    cases m with
    | nil => rfl
    | cons x xs => simp [subList, startsList_refl]
  | cons a p ih => simp [subList, ih]

theorem strHasSub_append (pre m : String) : strHasSub m (pre ++ m) = true := by
  unfold strHasSub
  have h : (pre ++ m).data = pre.data ++ m.data := String.data_append pre m
  rw [h]
  exact subList_append_self pre.data m.data

/-- C2: the in-memory strategy is chosen exactly when the declared size is
at most the 2 MiB memory ceiling, the chunked (spilled) strategy exactly
when it is strictly greater, and the boundary size equal to the ceiling
stays in memory. -/
theorem c2_strategy_threshold (f : UploadedFile) :
    (should_use_chunked_processing f = false ↔ f.size ≤ MAX_MEMORY_SIZE) ∧
    (should_use_chunked_processing f = true ↔ MAX_MEMORY_SIZE < f.size) ∧
    (f.size = MAX_MEMORY_SIZE → should_use_chunked_processing f = false) ∧
    MAX_MEMORY_SIZE = 2 * 1024 * 1024 := by
  refine ⟨?_, ?_, ?_, rfl⟩
  · simp [should_use_chunked_processing]
  · simp [should_use_chunked_processing]
  · intro h
    simp [should_use_chunked_processing, h]

theorem c2_strategy_threshold_witness :
    should_use_chunked_processing
      ⟨ "w2.pdf", some "application/pdf", MAX_MEMORY_SIZE⟩ = false ∧
    should_use_chunked_processing
      ⟨ "w2.pdf", some "application/pdf", MAX_MEMORY_SIZE + 1⟩ = true :=
  ⟨(c2_strategy_threshold _).1.mpr (Nat.le_refl _),
   (c2_strategy_threshold _).2.1.mpr (Nat.lt_succ_self _)⟩

/-- C8: when the chunked write to temporary storage fails, the partially
written temporary file is deleted (tempDeleted is emitted and the file no
longer exists) before the failure is returned to the caller. -/
theorem c8_spill_failure_deletes_partial (env : Env) (st : St)
    (h : env.spillWriteFails = true) :
    save_file_in_chunks env st =
      (⟨st.evs ++ [Ev.tempCreated, Ev.contentRead, Ev.tempDeleted], false⟩,
       Except.error "chunk write failure") := by
  unfold save_file_in_chunks
  simp [h]

theorem c8_spill_failure_deletes_partial_witness :
    envSpillFail.spillWriteFails = true ∧
    save_file_in_chunks envSpillFail St.init =
      (⟨[Ev.tempCreated, Ev.contentRead, Ev.tempDeleted], false⟩,
       Except.error "chunk write failure") :=
  ⟨rfl, c8_spill_failure_deletes_partial envSpillFail St.init rfl⟩

/-- C9: evaluation of the parser at the Scenario A text.  The claim says
wages = 50000.00 and federal tax withheld = 5000.00; the code instead
produces wages = 2.00 (money 200, the digit grabbed from the Box 2 label
after the greedy 20-character lookahead) and federal tax withheld = 0.00
(the last digit of 5,000.00), while the two identifiers come out as
claimed.  Amounts are in hundredths. -/
theorem c9_parse_scenario_a_actual :
    parse_w2_fields scenarioText = Except.ok scenarioFields ∧
    scenarioFields.lookup "wages" = some (FieldVal.money 200) ∧
    scenarioFields.lookup "federal_tax_withheld" =
      some (FieldVal.money 0) := by
  refine ⟨by decide, by decide, by decide⟩

/-- C4 counterexample: the document text "Box 1 ," lacks the ein, ssn
and federal_tax_withheld fields entirely (none of their patterns matches
anywhere in the text), yet extraction does not fail with the error naming
that missing set: the wages pattern captures a lone comma, the float
conversion of the comma-stripped empty string fails, and the generic
processing failure is raised instead, naming no missing key at all. -/
theorem c4_counterexample :
    reSearch einAt "Box 1 ,".data = none ∧
    reSearch ssnAt "Box 1 ,".data = none ∧
    reSearch taxAt "Box 1 ,".data = none ∧
    extract_w2_fields (Except.ok "Box 1 ,") =
      Except.error (ExtractErr.genericError
        "Failed to process PDF: could not convert string to float") ∧
    extract_w2_fields (Except.ok "Box 1 ,") ≠
      Except.error (ExtractErr.valueError
        ( "Missing required fields in PDF: " ++
          joinComma [ "ein", "ssn", "federal_tax_withheld"])) :=
  ⟨by decide, by decide, by decide, by decide, by decide⟩

/-- C4 (amended): when the parse itself completes (every matched amount
capture converts, i.e. holds a digit), a text lacking mandatory fields
makes extraction fail with the ValueError naming exactly the missing
keys in the fixed order of the required list, and an ok result always
carries every mandatory key and equals the full parse; when an amount
capture holds no digit the parse aborts and extraction fails wholesale
with the generic processing error instead.  In every case no partial
mapping escapes. -/
theorem c4_missing_fields_exact (text : String) :
    (∀ fields, parse_w2_fields text = Except.ok fields →
      ((missingOf fields).isEmpty = false →
        extract_w2_fields (Except.ok text) =
          Except.error (ExtractErr.valueError
            ( "Missing required fields in PDF: " ++
              joinComma (missingOf fields)))) ∧
      (∀ f2, extract_w2_fields (Except.ok text) = Except.ok f2 →
        f2 = fields ∧ (missingOf f2).isEmpty = true)) ∧
    (∀ e, parse_w2_fields text = Except.error e →
      extract_w2_fields (Except.ok text) =
        Except.error (ExtractErr.genericError
          ( "Failed to process PDF: " ++ e))) := by
  constructor
  · intro fields h
    simp only [extract_w2_fields, h]
    by_cases he : (missingOf fields).isEmpty
    · have hnil := List.isEmpty_iff.mp he
      simp [he, hnil]
    · simp [he]
  · intro e he
    simp only [extract_w2_fields, he]

theorem c4_missing_fields_exact_witness :
    parse_w2_fields "hello" = Except.ok [] ∧
    ((missingOf ([] : Fields)).isEmpty = false) ∧
    extract_w2_fields (Except.ok "hello") =
      Except.error (ExtractErr.valueError
        ( "Missing required fields in PDF: " ++
          joinComma (missingOf ([] : Fields)))) :=
  ⟨by decide, by decide,
   ((c4_missing_fields_exact "hello").1 [] (by decide)).1 (by decide)⟩

/-- C7: the three upload validations run before anything else: a failed
validation yields its own distinct 400 client-input response while the
event trace stays empty (no content read, no temporary file, no relay
call); a wrong extension, a present-but-wrong content type, and a zero
declared size each produce their own message, and the three messages are
pairwise distinct. -/
theorem c7_validation_rejections (f : UploadedFile) (env : Env)
    (settings : Settings) :
    (∀ m, validate_pdf_file f = some m →
        post f env settings = (St.init, ⟨400, RespBody.err m⟩) ∧
        St.init.evs = []) ∧
    (endsList ".pdf".data (lowerName f) = false →
        validate_pdf_file f = some "File extension must be .pdf") ∧
    (endsList ".pdf".data (lowerName f) = true →
      ∀ ct, f.content_type = some ct → ct ≠ "application/pdf" →
        validate_pdf_file f = some "Content type must be application/pdf") ∧
    (endsList ".pdf".data (lowerName f) = true →
      content_type_ok f = true → f.size = 0 →
        validate_pdf_file f = some "Uploaded file is empty.") ∧
    (( "File extension must be .pdf" : String) ≠
        "Content type must be application/pdf" ∧
     ( "File extension must be .pdf" : String) ≠ "Uploaded file is empty." ∧
     ( "Content type must be application/pdf" : String) ≠
        "Uploaded file is empty.") := by
  refine ⟨?_, ?_, ?_, ?_, by decide, by decide, by decide⟩
  · intro m hm
    unfold post
    rw [hm]
    exact ⟨rfl, rfl⟩
  · intro hext
    unfold validate_pdf_file
    simp [hext]
  · intro hext ct hct hne
    unfold validate_pdf_file
    simp [hext, hct, hne]
  · intro hext hct hsz
    unfold validate_pdf_file content_type_ok at *
    cases hc : f.content_type with
    | none => simp [hext, hc, hsz]
    | some ct =>
      rw [hc] at hct
      simp only [beq_iff_eq] at hct
      simp [hext, hc, hsz, hct]

theorem c7_validation_rejections_witness :
    validate_pdf_file badExtFile = some "File extension must be .pdf" ∧
    post badExtFile envOk settings0 =
      (St.init, ⟨400, RespBody.err "File extension must be .pdf"⟩) :=
  ⟨by decide,
   ((c7_validation_rejections badExtFile envOk settings0).1
     "File extension must be .pdf" (by decide)).1⟩

-- ===== equation lemmas for the relay and the post handler =====

theorem integration_call1_transport (settings : Settings)
    (file : UploadedFile) (fields : Fields) (env : Env) (st : St)
    (t : TransportFailure) (hc : env.call1 = CallOutcome.transport t) :
    process_third_party_integration settings file fields env st =
      (⟨st.evs ++ [Ev.sent (report_request settings fields)], st.tempExists⟩,
       Except.error (excOfTransport t)) := by
  simp [process_third_party_integration, emitSent, hc]

theorem integration_call1_errorResp (settings : Settings)
    (file : UploadedFile) (fields : Fields) (env : Env) (st : St)
    (r : UpstreamResponse) (code : Nat) (m : String)
    (hc : env.call1 = CallOutcome.resp r)
    (hh : handle_third_party_response r "data reporting" =
      HandleResult.errorResp code m) :
    process_third_party_integration settings file fields env st =
      (⟨st.evs ++ [Ev.sent (report_request settings fields)], st.tempExists⟩,
       Except.error (PipelineExc.generic
         ( "Data reporting failed: " ++ dictErrStr m))) := by
  simp [process_third_party_integration, emitSent, hc, hh]

theorem integration_call1_raise (settings : Settings)
    (file : UploadedFile) (fields : Fields) (env : Env) (st : St)
    (r : UpstreamResponse) (m : String)
    (hc : env.call1 = CallOutcome.resp r)
    (hh : handle_third_party_response r "data reporting" =
      HandleResult.raiseExc m) :
    process_third_party_integration settings file fields env st =
      (⟨st.evs ++ [Ev.sent (report_request settings fields)], st.tempExists⟩,
       Except.error (PipelineExc.generic m)) := by
  simp [process_third_party_integration, emitSent, hc, hh]

theorem integration_call2_transport (settings : Settings)
    (file : UploadedFile) (fields : Fields) (env : Env) (st : St)
    (r : UpstreamResponse) (t : TransportFailure)
    (hc : env.call1 = CallOutcome.resp r)
    (hh : handle_third_party_response r "data reporting" = HandleResult.ok)
    (hc2 : env.call2 = CallOutcome.transport t) :
    process_third_party_integration settings file fields env st =
      (⟨st.evs ++ [Ev.sent (report_request settings fields),
          Ev.sent (upload_request settings file.name r.jsonId)],
        st.tempExists⟩,
       Except.error (excOfTransport t)) := by
  simp [process_third_party_integration, emitSent, hc, hh, hc2]

theorem integration_call2_errorResp (settings : Settings)
    (file : UploadedFile) (fields : Fields) (env : Env) (st : St)
    (r r2 : UpstreamResponse) (code : Nat) (m : String)
    (hc : env.call1 = CallOutcome.resp r)
    (hh : handle_third_party_response r "data reporting" = HandleResult.ok)
    (hc2 : env.call2 = CallOutcome.resp r2)
    (hh2 : handle_third_party_response r2 "file upload" =
      HandleResult.errorResp code m) :
    process_third_party_integration settings file fields env st =
      (⟨st.evs ++ [Ev.sent (report_request settings fields),
          Ev.sent (upload_request settings file.name r.jsonId)],
        st.tempExists⟩,
       Except.error (PipelineExc.generic
         ( "File upload failed: " ++ dictErrStr m))) := by
  simp [process_third_party_integration, emitSent, hc, hh, hc2, hh2]

theorem integration_call2_raise (settings : Settings)
    (file : UploadedFile) (fields : Fields) (env : Env) (st : St)
    (r r2 : UpstreamResponse) (m : String)
    (hc : env.call1 = CallOutcome.resp r)
    (hh : handle_third_party_response r "data reporting" = HandleResult.ok)
    (hc2 : env.call2 = CallOutcome.resp r2)
    (hh2 : handle_third_party_response r2 "file upload" =
      HandleResult.raiseExc m) :
    process_third_party_integration settings file fields env st =
      (⟨st.evs ++ [Ev.sent (report_request settings fields),
          Ev.sent (upload_request settings file.name r.jsonId)],
        st.tempExists⟩,
       Except.error (PipelineExc.generic m)) := by
  simp [process_third_party_integration, emitSent, hc, hh, hc2, hh2]

theorem integration_call2_ok (settings : Settings)
    (file : UploadedFile) (fields : Fields) (env : Env) (st : St)
    (r r2 : UpstreamResponse)
    (hc : env.call1 = CallOutcome.resp r)
    (hh : handle_third_party_response r "data reporting" = HandleResult.ok)
    (hc2 : env.call2 = CallOutcome.resp r2)
    (hh2 : handle_third_party_response r2 "file upload" = HandleResult.ok) :
    process_third_party_integration settings file fields env st =
      (⟨st.evs ++ [Ev.sent (report_request settings fields),
          Ev.sent (upload_request settings file.name r.jsonId)],
        st.tempExists⟩,
       Except.ok (r.jsonId, r2.jsonId)) := by
  simp [process_third_party_integration, emitSent, hc, hh, hc2, hh2]

theorem post_of_validate_err (file : UploadedFile) (env : Env)
    (settings : Settings) (m : String)
    (hv : validate_pdf_file file = some m) :
    post file env settings = (St.init, ⟨400, RespBody.err m⟩) := by
  simp [post, hv]

theorem post_of_extract_valueError (file : UploadedFile) (env : Env)
    (settings : Settings) (st : St) (m : String)
    (hv : validate_pdf_file file = none)
    (hex : extract_pdf_fields file env St.init =
      (st, Except.error (ExtractErr.valueError m))) :
    post file env settings =
      (st, ⟨422, RespBody.err ( "PDF parsing error: " ++ m)⟩) := by
  simp [post, hv, hex]

theorem post_of_extract_genericError (file : UploadedFile) (env : Env)
    (settings : Settings) (st : St) (m : String)
    (hv : validate_pdf_file file = none)
    (hex : extract_pdf_fields file env St.init =
      (st, Except.error (ExtractErr.genericError m))) :
    post file env settings =
      (st, ⟨422, RespBody.err ( "Failed to read PDF: " ++ m)⟩) := by
  simp [post, hv, hex]

theorem post_of_relay_error (file : UploadedFile) (env : Env)
    (settings : Settings) (st st2 : St) (fields : Fields)
    (exc : PipelineExc)
    (hv : validate_pdf_file file = none)
    (hex : extract_pdf_fields file env St.init = (st, Except.ok fields))
    (hpi : process_third_party_integration settings file fields env st =
      (st2, Except.error exc)) :
    post file env settings = (st2, excResponse exc) := by
  simp [post, hv, hex, hpi]

theorem post_of_relay_ok (file : UploadedFile) (env : Env)
    (settings : Settings) (st st2 : St) (fields : Fields)
    (dId fId : Option String)
    (hv : validate_pdf_file file = none)
    (hex : extract_pdf_fields file env St.init = (st, Except.ok fields))
    (hpi : process_third_party_integration settings file fields env st =
      (st2, Except.ok (dId, fId))) :
    post file env settings =
      (st2, ⟨200, RespBody.success fields dId fId⟩) := by
  simp [post, hv, hex, hpi]

theorem handle_eq_ok_iff (r : UpstreamResponse) (op : String) :
    handle_third_party_response r op = HandleResult.ok ↔
      r.status_code = 200 := by
  unfold handle_third_party_response
  split_ifs with h1 h2 h3 h4
  all_goals simp_all
  all_goals omega

theorem classify_resp_none_iff (r : UpstreamResponse) :
    classifyOutcome (CallOutcome.resp r) = none ↔ r.status_code = 200 := by
  unfold classifyOutcome
  dsimp only
  split_ifs with h1 h2 h3 h4
  all_goals simp_all
  all_goals omega

theorem handle_of_classify_some (r : UpstreamResponse) (c : FailClass)
    (op : String) (h : classifyOutcome (CallOutcome.resp r) = some c) :
    (c = FailClass.auth401 ∧ handle_third_party_response r op =
      HandleResult.errorResp 502
        ( "Authentication failed with third-party API for " ++ op ++ ".")) ∨
    (c = FailClass.rejected400 ∧ handle_third_party_response r op =
      HandleResult.errorResp 502
        ( "Third-party API rejected " ++ op ++ ".")) ∨
    (c = FailClass.server5xx ∧
      handle_third_party_response r op = HandleResult.errorResp 502
        ( "Third-party API server error for " ++ op ++ ".")) ∨
    (∃ body, c = FailClass.otherStatus body ∧
      handle_third_party_response r op = HandleResult.raiseExc
        ( "Third-party " ++ op ++ " API error: " ++ body)) := by
  unfold classifyOutcome at h
  unfold handle_third_party_response
  dsimp only at h
  split_ifs at h with h1 h2 h3 h4
  · injection h with h
    subst h
    exact Or.inl ⟨rfl, by rw [if_pos h1]⟩
  · injection h with h
    subst h
    exact Or.inr (Or.inl ⟨rfl, by rw [if_neg h1, if_pos h2]⟩)
  · injection h with h
    subst h
    exact Or.inr (Or.inr (Or.inl ⟨rfl,
      by rw [if_neg h1, if_neg h2, if_pos h3]⟩))
  · injection h with h
    subst h
    exact Or.inr (Or.inr (Or.inr ⟨r.text, rfl,
      by rw [if_neg h1, if_neg h2, if_neg h3, if_pos h4]⟩))

theorem count_map_sent_eq_zero (reqs : List HttpRequest) (e : Ev)
    (he : ∀ r, e ≠ Ev.sent r) : (reqs.map Ev.sent).count e = 0 := by
  rw [List.count_eq_zero]
  intro hmem
  rcases List.mem_map.mp hmem with ⟨r, _, hr⟩
  exact he r hr.symm


theorem shape_after_none (file : UploadedFile) (env : Env)
    (settings : Settings) (st : St)
    (hpost : (post file env settings).1 = st)
    (hex1 : (extract_pdf_fields file env St.init).1 = st) :
    TraceShape file env settings := by
  refine Or.inr ⟨[], ?_, ?_, by simp, fun _ => Or.inl rfl, by simp⟩
  · simp [hpost, hex1]
  · simp [hpost, hex1]

theorem shape_after_one (file : UploadedFile) (env : Env)
    (settings : Settings) (fields : Fields) (st : St)
    (hpost : (post file env settings).1 =
      ⟨st.evs ++ [Ev.sent (report_request settings fields)], st.tempExists⟩)
    (hex1 : (extract_pdf_fields file env St.init).1 = st) :
    TraceShape file env settings := by
  refine Or.inr ⟨[report_request settings fields], ?_, ?_, ?_, ?_, ?_⟩
  · simp [hpost, hex1]
  · rw [hpost, hex1]
  · intro q hq
    simp only [List.mem_singleton] at hq
    subst hq
    rfl
  · intro _
    exact Or.inr ⟨fields, rfl⟩
  · intro q hq nm df hb
    simp only [List.mem_singleton] at hq
    subst hq
    simp [report_request] at hb

theorem shape_after_two (file : UploadedFile) (env : Env)
    (settings : Settings) (fields : Fields) (st : St)
    (r : UpstreamResponse)
    (hc1 : env.call1 = CallOutcome.resp r) (h200 : r.status_code = 200)
    (hpost : (post file env settings).1 =
      ⟨st.evs ++ [Ev.sent (report_request settings fields),
        Ev.sent (upload_request settings file.name r.jsonId)],
       st.tempExists⟩)
    (hex1 : (extract_pdf_fields file env St.init).1 = st) :
    TraceShape file env settings := by
  refine Or.inr ⟨[report_request settings fields,
    upload_request settings file.name r.jsonId], ?_, ?_, ?_, ?_, ?_⟩
  · simp [hpost, hex1]
  · rw [hpost, hex1]
  · intro q hq
    simp only [List.mem_cons, List.mem_singleton, List.not_mem_nil,
      or_false] at hq
    rcases hq with hq | hq <;> subst hq <;> rfl
  · intro hsome
    have hnone : classifyOutcome env.call1 = none := by
      rw [hc1]
      exact (classify_resp_none_iff r).mpr h200
    rw [hnone] at hsome
    simp at hsome
  · intro q hq nm df hb
    simp only [List.mem_cons, List.mem_singleton, List.not_mem_nil,
      or_false] at hq
    rcases hq with hq | hq <;> subst hq
    · simp [report_request] at hb
    · simp only [upload_request] at hb
      injection hb with hnm hdf
      exact ⟨r, hc1, h200, hdf.symm⟩

theorem post_trace_shape (file : UploadedFile) (env : Env)
    (settings : Settings) : TraceShape file env settings := by
  obtain ⟨v, hv⟩ : ∃ v, validate_pdf_file file = v := ⟨_, rfl⟩
  cases v with
  | some m =>
    left
    rw [post_of_validate_err file env settings m hv]
  | none =>
    obtain ⟨st, r, hex⟩ :
        ∃ st r, extract_pdf_fields file env St.init = (st, r) := ⟨_, _, rfl⟩
    have hex1 : (extract_pdf_fields file env St.init).1 = st := by rw [hex]
    cases r with
    | error e =>
      cases e with
      | valueError m =>
        have hpost := post_of_extract_valueError file env settings st m hv hex
        exact shape_after_none file env settings st (by rw [hpost]) hex1
      | genericError m =>
        have hpost :=
          post_of_extract_genericError file env settings st m hv hex
        exact shape_after_none file env settings st (by rw [hpost]) hex1
    | ok fields =>
      obtain ⟨c1v, hc1⟩ : ∃ c, env.call1 = c := ⟨_, rfl⟩
      cases c1v with
      | transport t =>
        have hpi := integration_call1_transport settings file fields env st
          t hc1
        have hpost := post_of_relay_error file env settings st _ fields _
          hv hex hpi
        exact shape_after_one file env settings fields st (by rw [hpost]) hex1
      | resp rr =>
        obtain ⟨hrv, hh1⟩ :
            ∃ h, handle_third_party_response rr "data reporting" = h :=
          ⟨_, rfl⟩
        cases hrv with
        | errorResp code m =>
          have hpi := integration_call1_errorResp settings file fields env
            st rr code m hc1 hh1
          have hpost := post_of_relay_error file env settings st _ fields _
            hv hex hpi
          exact shape_after_one file env settings fields st (by rw [hpost])
            hex1
        | raiseExc m =>
          have hpi := integration_call1_raise settings file fields env st
            rr m hc1 hh1
          have hpost := post_of_relay_error file env settings st _ fields _
            hv hex hpi
          exact shape_after_one file env settings fields st (by rw [hpost])
            hex1
        | ok =>
          have h200 := (handle_eq_ok_iff rr "data reporting").mp hh1
          obtain ⟨c2v, hc2⟩ : ∃ c, env.call2 = c := ⟨_, rfl⟩
          cases c2v with
          | transport t2 =>
            have hpi := integration_call2_transport settings file fields
              env st rr t2 hc1 hh1 hc2
            have hpost := post_of_relay_error file env settings st _
              fields _ hv hex hpi
            exact shape_after_two file env settings fields st rr hc1 h200
              (by rw [hpost]) hex1
          | resp rr2 =>
            obtain ⟨h2v, hh2⟩ :
                ∃ h, handle_third_party_response rr2 "file upload" = h :=
              ⟨_, rfl⟩
            cases h2v with
            | errorResp code2 m2 =>
              have hpi := integration_call2_errorResp settings file fields
                env st rr rr2 code2 m2 hc1 hh1 hc2 hh2
              have hpost := post_of_relay_error file env settings st _
                fields _ hv hex hpi
              exact shape_after_two file env settings fields st rr hc1 h200
                (by rw [hpost]) hex1
            | raiseExc m2 =>
              have hpi := integration_call2_raise settings file fields env
                st rr rr2 m2 hc1 hh1 hc2 hh2
              have hpost := post_of_relay_error file env settings st _
                fields _ hv hex hpi
              exact shape_after_two file env settings fields st rr hc1 h200
                (by rw [hpost]) hex1
            | ok =>
              have hpi := integration_call2_ok settings file fields env st
                rr rr2 hc1 hh1 hc2 hh2
              have hpost := post_of_relay_ok file env settings st _ fields
                _ _ hv hex hpi
              exact shape_after_two file env settings fields st rr hc1 h200
                (by rw [hpost]) hex1


theorem extract_st_cases (file : UploadedFile) (env : Env) :
    (extract_pdf_fields file env St.init).1 =
      ⟨[Ev.tempCreated, Ev.contentRead, Ev.tempDeleted], false⟩ ∨
    (extract_pdf_fields file env St.init).1 = ⟨[Ev.contentRead], false⟩ := by
  unfold extract_pdf_fields save_file_in_chunks cleanup_temp_file St.init
  by_cases hc : should_use_chunked_processing file
  · by_cases hs : env.spillWriteFails <;> simp [hc, hs]
  · simp [hc]

theorem extract_pdf_fields_ok (file : UploadedFile) (env : Env)
    (hspill : should_use_chunked_processing file = true →
      env.spillWriteFails = false) :
    (extract_pdf_fields file env St.init).2 =
      extract_w2_fields env.textExtract := by
  unfold extract_pdf_fields save_file_in_chunks cleanup_temp_file
  by_cases hc : should_use_chunked_processing file
  · simp [hc, hspill hc]
  · simp [hc]

/-- C3: on every exit path of a request (validation rejection, spill
failure, extraction failure, relay failure, success), the temporary file
is created at most once, deleted exactly as many times as it is created,
and does not exist when the request completes: no path leaks it. -/
theorem c3_temp_file_never_leaks (file : UploadedFile) (env : Env)
    (settings : Settings) :
    (post file env settings).1.evs.count Ev.tempCreated =
      (post file env settings).1.evs.count Ev.tempDeleted ∧
    (post file env settings).1.evs.count Ev.tempCreated ≤ 1 ∧
    (post file env settings).1.tempExists = false := by
  have hbase :
      ((extract_pdf_fields file env St.init).1.evs.count Ev.tempCreated =
        (extract_pdf_fields file env St.init).1.evs.count Ev.tempDeleted) ∧
      (extract_pdf_fields file env St.init).1.evs.count Ev.tempCreated ≤ 1 ∧
      (extract_pdf_fields file env St.init).1.tempExists = false := by
    rcases extract_st_cases file env with h | h <;> rw [h] <;>
      exact ⟨by decide, by decide, rfl⟩
  rcases post_trace_shape file env settings with h | ⟨reqs, hevs, htmp, _, _, _⟩
  · rw [h]
    exact ⟨rfl, by decide, rfl⟩
  · refine ⟨?_, ?_, ?_⟩
    · rw [hevs, List.count_append, List.count_append,
        count_map_sent_eq_zero reqs Ev.tempCreated
          (fun r hr => Ev.noConfusion hr),
        count_map_sent_eq_zero reqs Ev.tempDeleted
          (fun r hr => Ev.noConfusion hr),
        hbase.1]
    · rw [hevs, List.count_append,
        count_map_sent_eq_zero reqs Ev.tempCreated
          (fun r hr => Ev.noConfusion hr)]
      simpa using hbase.2.1
    · rw [htmp]
      exact hbase.2.2

/-- C1: whenever the first relay call (data submission) fails under any
classification of the mapping table (401, 400, 500 and above, any other
non-200 status, or any transport failure), the multipart file-submission
call is never sent. -/
theorem c1_first_failure_blocks_file_submission (file : UploadedFile)
    (env : Env) (settings : Settings)
    (h : (classifyOutcome env.call1).isSome = true) :
    (post file env settings).1.evs.any isMultipartSent = false := by
  have hbase :
      (extract_pdf_fields file env St.init).1.evs.any isMultipartSent =
        false := by
    rcases extract_st_cases file env with hh | hh <;> rw [hh] <;> decide
  rcases post_trace_shape file env settings with
    hs | ⟨reqs, hevs, _, _, hfail, _⟩
  · rw [hs]
    rfl
  · rcases hfail h with hr | ⟨fields, hr⟩
    · rw [hevs, hr]
      simpa using hbase
    · rw [hevs, hr, List.any_append, hbase]
      rfl

theorem c1_first_failure_blocks_file_submission_witness :
    (classifyOutcome env401.call1).isSome = true ∧
    (post file0 env401 settings0).1.evs.any isMultipartSent = false :=
  ⟨by decide,
   c1_first_failure_blocks_file_submission file0 env401 settings0
     (by decide)⟩

/-- C10: every outbound relay request of every run, the JSON data
submission as well as the multipart file submission, is addressed to the
single configured endpoint URL (THIRD_PARTY_UPLOAD_URL); no separate
report and upload endpoints exist. -/
theorem c10_single_endpoint (file : UploadedFile) (env : Env)
    (settings : Settings) (q : HttpRequest)
    (h : Ev.sent q ∈ (post file env settings).1.evs) :
    q.url = settings.THIRD_PARTY_UPLOAD_URL := by
  have hbase : Ev.sent q ∉ (extract_pdf_fields file env St.init).1.evs := by
    rcases extract_st_cases file env with hh | hh <;> rw [hh] <;> simp
  rcases post_trace_shape file env settings with
    hs | ⟨reqs, hevs, _, hurl, _, _⟩
  · rw [hs] at h
    simp [St.init] at h
  · rw [hevs] at h
    rcases List.mem_append.mp h with hin | hin
    · exact absurd hin hbase
    · rcases List.mem_map.mp hin with ⟨rq, hrq, heq⟩
      injection heq with h2
      subst h2
      exact hurl rq hrq

theorem c10_single_endpoint_witness :
    Ev.sent (report_request settings0 scenarioFields) ∈
      (post file0 envOk settings0).1.evs ∧
    (report_request settings0 scenarioFields).url =
      settings0.THIRD_PARTY_UPLOAD_URL :=
  ⟨by decide,
   c10_single_endpoint file0 envOk settings0 _ (by decide)⟩

/-- C5 counterexample: with a first call answering 200 but carrying no
identifier, the run still succeeds end to end and the second, multipart
call is sent with an empty form body: no unique_id correlating field is
carried, refuting the claim that the report identifier is mandatory input
carried in every execution of the second call. -/
theorem c5_counterexample :
    (post file0 envNoId settings0).2.status = 200 ∧
    (post file0 envNoId settings0).1.evs.any isMultipartSent = true ∧
    (post file0 envNoId settings0).1.evs.any (fun e => match e with
       | Ev.sent ⟨_, ReqBody.multipartBody _ df, _, _⟩ =>
           !(df.any (fun p => p.1 == "unique_id"))
       | _ => false) = true :=
  ⟨by decide, by decide, by decide⟩

/-- C5 (amended): any multipart file-submission request that is actually
sent presupposes that the first call answered 200; its form body carries
unique_id equal to the identifier of that response exactly when that
identifier is present and non-empty, and is empty otherwise (the second
call is still attempted without the correlating field). -/
theorem c5_amended_upload_correlation (file : UploadedFile) (env : Env)
    (settings : Settings) (q : HttpRequest) (nm : String)
    (df : List (String × String))
    (hq : Ev.sent q ∈ (post file env settings).1.evs)
    (hb : q.body = ReqBody.multipartBody nm df) :
    ∃ r, env.call1 = CallOutcome.resp r ∧ r.status_code = 200 ∧
      ((∃ i, r.jsonId = some i ∧ i ≠ "" ∧ df = [( "unique_id", i)]) ∨
       ((r.jsonId = none ∨ r.jsonId = some "") ∧ df = [])) := by
  have hbase : Ev.sent q ∉ (extract_pdf_fields file env St.init).1.evs := by
    rcases extract_st_cases file env with hh | hh <;> rw [hh] <;> simp
  rcases post_trace_shape file env settings with
    hs | ⟨reqs, hevs, _, _, _, hmp⟩
  · rw [hs] at hq
    simp [St.init] at hq
  · rw [hevs] at hq
    rcases List.mem_append.mp hq with hin | hin
    · exact absurd hin hbase
    · rcases List.mem_map.mp hin with ⟨rq, hrq, heq⟩
      injection heq with h2
      subst h2
      rcases hmp rq hrq nm df hb with ⟨r, hc1, h200, hdf⟩
      refine ⟨r, hc1, h200, ?_⟩
      cases hjid : r.jsonId with
      | none =>
        right
        refine ⟨Or.inl rfl, ?_⟩
        rw [hdf, hjid]
        rfl
      | some i =>
        by_cases hi : i = ""
        · right
          subst hi
          refine ⟨Or.inr rfl, ?_⟩
          rw [hdf, hjid]
          decide
        · left
          refine ⟨i, rfl, hi, ?_⟩
          rw [hdf, hjid]
          simp [upload_data_fields, hi]

theorem c5_amended_upload_correlation_witness :
    Ev.sent (upload_request settings0 "w2.pdf" (some "RID")) ∈
      (post file0 envOk settings0).1.evs ∧
    (∃ r, envOk.call1 = CallOutcome.resp r ∧ r.status_code = 200 ∧
      ((∃ i, r.jsonId = some i ∧ i ≠ "" ∧
        ([( "unique_id", "RID")] : List (String × String)) =
          [( "unique_id", i)]) ∨
       ((r.jsonId = none ∨ r.jsonId = some "") ∧
        ([( "unique_id", "RID")] : List (String × String)) = []))) :=
  ⟨by decide,
   c5_amended_upload_correlation file0 envOk settings0
     (upload_request settings0 "w2.pdf" (some "RID")) "w2.pdf"
     [( "unique_id", "RID")] (by decide) (by decide)⟩


theorem post_resp_relay (file : UploadedFile) (env : Env)
    (settings : Settings) (fields : Fields) (w : Bool) (c : FailClass)
    (hv : validate_pdf_file file = none)
    (he : extract_w2_fields env.textExtract = Except.ok fields)
    (hsp : should_use_chunked_processing file = true →
      env.spillWriteFails = false)
    (hf : relayFailure env = some (w, c)) :
    (post file env settings).2 = excResponse (excOfClass w c) := by
  obtain ⟨st, r, hex⟩ :
      ∃ st r, extract_pdf_fields file env St.init = (st, r) := ⟨_, _, rfl⟩
  have hr : r = Except.ok fields := by
    have h2 := extract_pdf_fields_ok file env hsp
    rw [hex] at h2
    exact h2.trans he
  subst hr
  unfold relayFailure at hf
  obtain ⟨o1, ho1⟩ : ∃ o, classifyOutcome env.call1 = o := ⟨_, rfl⟩
  rw [ho1] at hf
  cases o1 with
  | some c1 =>
    dsimp only at hf
    injection hf with hf
    injection hf with hw hc
    subst hw
    subst hc
    cases hcall : env.call1 with
    | transport t =>
      rw [hcall] at ho1
      have hpi := integration_call1_transport settings file fields env st
        t hcall
      have hpost := post_of_relay_error file env settings st _ fields _
        hv hex hpi
      rw [hpost]
      cases t <;> simp only [classifyOutcome] at ho1 <;>
        injection ho1 with ho1 <;> subst ho1 <;> rfl
    | resp rr =>
      rw [hcall] at ho1
      rcases handle_of_classify_some rr c1 "data reporting" ho1 with
        ⟨hceq, hh⟩ | ⟨hceq, hh⟩ | ⟨hceq, hh⟩ | ⟨body, hceq, hh⟩
      · subst hceq
        have hpi := integration_call1_errorResp settings file fields env
          st rr 502 _ hcall hh
        rw [post_of_relay_error file env settings st _ fields _ hv hex hpi]
        rfl
      · subst hceq
        have hpi := integration_call1_errorResp settings file fields env
          st rr 502 _ hcall hh
        rw [post_of_relay_error file env settings st _ fields _ hv hex hpi]
        rfl
      · subst hceq
        have hpi := integration_call1_errorResp settings file fields env
          st rr 502 _ hcall hh
        rw [post_of_relay_error file env settings st _ fields _ hv hex hpi]
        rfl
      · subst hceq
        have hpi := integration_call1_raise settings file fields env
          st rr _ hcall hh
        rw [post_of_relay_error file env settings st _ fields _ hv hex hpi]
        rfl
  | none =>
    dsimp only at hf
    rcases Option.map_eq_some'.mp hf with ⟨c2, ho2, hpair⟩
    injection hpair with hw hc
    subst hw
    subst hc
    cases hcall : env.call1 with
    | transport t =>
      rw [hcall] at ho1
      cases t <;> simp [classifyOutcome] at ho1
    | resp rr =>
      rw [hcall] at ho1
      have h200 := (classify_resp_none_iff rr).mp ho1
      have hh1 : handle_third_party_response rr "data reporting" =
          HandleResult.ok := (handle_eq_ok_iff rr "data reporting").mpr h200
      cases hcall2 : env.call2 with
      | transport t2 =>
        rw [hcall2] at ho2
        have hpi := integration_call2_transport settings file fields env
          st rr t2 hcall hh1 hcall2
        have hpost := post_of_relay_error file env settings st _ fields _
          hv hex hpi
        rw [hpost]
        cases t2 <;> simp only [classifyOutcome] at ho2 <;>
          injection ho2 with ho2 <;> subst ho2 <;> rfl
      | resp rr2 =>
        rw [hcall2] at ho2
        rcases handle_of_classify_some rr2 c2 "file upload" ho2 with
          ⟨hceq, hh⟩ | ⟨hceq, hh⟩ | ⟨hceq, hh⟩ | ⟨body, hceq, hh⟩
        · subst hceq
          have hpi := integration_call2_errorResp settings file fields env
            st rr rr2 502 _ hcall hh1 hcall2 hh
          rw [post_of_relay_error file env settings st _ fields _ hv hex
            hpi]
          rfl
        · subst hceq
          have hpi := integration_call2_errorResp settings file fields env
            st rr rr2 502 _ hcall hh1 hcall2 hh
          rw [post_of_relay_error file env settings st _ fields _ hv hex
            hpi]
          rfl
        · subst hceq
          have hpi := integration_call2_errorResp settings file fields env
            st rr rr2 502 _ hcall hh1 hcall2 hh
          rw [post_of_relay_error file env settings st _ fields _ hv hex
            hpi]
          rfl
        · subst hceq
          have hpi := integration_call2_raise settings file fields env
            st rr rr2 _ hcall hh1 hcall2 hh
          rw [post_of_relay_error file env settings st _ fields _ hv hex
            hpi]
          rfl

theorem excResponse_not_success (e : PipelineExc) :
    isSuccessBody (excResponse e).body = false := by
  cases e <;> rfl

theorem excResponse_status_or (e : PipelineExc) :
    (excResponse e).status = 502 ∨ (excResponse e).status = 504 := by
  cases e <;> simp [excResponse]

theorem excResponse_504_iff (e : PipelineExc) :
    (excResponse e).status = 504 ↔ e = PipelineExc.timeoutException := by
  cases e <;> simp [excResponse]

theorem excOfClass_timeout_iff (w : Bool) (c : FailClass) :
    excOfClass w c = PipelineExc.timeoutException ↔
      c = FailClass.timeout := by
  cases c <;> simp [excOfClass]

theorem spec_map_of_class (w : Bool) (c : FailClass) :
    specGatewayMapping c (excResponse (excOfClass w c)) := by
  refine ⟨excResponse_not_success _, excResponse_status_or _,
    (excResponse_504_iff _).trans (excOfClass_timeout_iff w c), ?_⟩
  cases c with
  | auth401 => cases w <;> decide
  | rejected400 => cases w <;> decide
  | server5xx => cases w <;> decide
  | otherStatus body => exact strHasSub_append _ body
  | connect => cases w <;> decide
  | timeout => cases w <;> decide
  | netOther em => exact strHasSub_append _ em

/-- C6: for every relay failure, first or second call, under every
classification of the table (401, 400, 500 and above, other non-200,
connection failure, timeout, other transport failure), the caller gets a
gateway-class response and never a success payload: status 502 or 504,
with 504 exactly for a timeout, the authentication, rejection and
server-failure texts for 401, 400 and 500 and above, the raw upstream
body echoed for an unexpected status, and the transport-failure message
for network errors. -/
theorem c6_gateway_error_mapping (file : UploadedFile) (env : Env)
    (settings : Settings) (fields : Fields) (w : Bool) (c : FailClass)
    (hv : validate_pdf_file file = none)
    (he : extract_w2_fields env.textExtract = Except.ok fields)
    (hsp : should_use_chunked_processing file = true →
      env.spillWriteFails = false)
    (hf : relayFailure env = some (w, c)) :
    specGatewayMapping c (post file env settings).2 := by
  rw [post_resp_relay file env settings fields w c hv he hsp hf]
  exact spec_map_of_class w c

theorem c6_gateway_error_mapping_witness :
    validate_pdf_file file0 = none ∧
    extract_w2_fields env401.textExtract = Except.ok scenarioFields ∧
    relayFailure env401 = some (false, FailClass.auth401) ∧
    specGatewayMapping FailClass.auth401 (post file0 env401 settings0).2 :=
  ⟨by decide, by decide, by decide,
   c6_gateway_error_mapping file0 env401 settings0 scenarioFields false
     FailClass.auth401 (by decide) (by decide) (by decide) (by decide)⟩

end W2PDF
